import Mathlib

/-!
Shallow embedding of src/main.py, the SMB server setup script.

The embedded pieces are the ones the claims are about: the two timed
interactive prompts (select_network_binding, select_smb_version), the
cascading environment resolvers (get_nobody_user_group,
get_samba_service_names and the firewall cascade of configure_firewall)
and the configuration backup step (backup_samba_config).

External effects are modelled by explicit environment records.  The
outcome of running one external command is a CmdOutcome: exit status 0,
a nonzero exit status (which raises subprocess.CalledProcessError when
check=True is passed), or a missing executable (which raises
FileNotFoundError).  Console input during a 1-second polling tick is a
TickEvent.  Propagated Python exceptions are modelled by Except.error.
-/

/-- One detected network interface as produced by get_network_interfaces
(fields name, ip, cidr of the dictionaries it builds).  The parsing of
command output into these records is abstracted as environment data;
the command and exception structure of detection is modelled by
get_network_interfaces further below, and the prompt body
select_network_binding takes the detected list as an input. -/
structure Interface where
  name : String
  ip : String
  cidr : String
  deriving DecidableEq, Repr

/-- One tick of a 1-second polling loop: a line of input became ready
(the string is the line already passed through strip()), the 1-second
select timed out with no input, or a KeyboardInterrupt / EOFError was
raised while waiting. -/
inductive TickEvent where
  | line (s : String)
  | silent
  | interrupt
  deriving DecidableEq, Repr

/-- Increment the tick counter of a loop result. -/
def tickSucc (p : String × Nat) : String × Nat := (p.1, p.2 + 1)

/-- Countdown loop of select_network_binding (src/main.py lines 157-184).
Returns the final value of user_input together with the number of loop
iterations executed.  A ready line breaks the loop only when non-empty;
an empty ready line leaves the loop running.  KeyboardInterrupt and
EOFError set user_input to the string 1 and break; when the 60 ticks are
exhausted the for-else arm also sets user_input to the string 1. -/
def runNetLoop : List TickEvent → Nat → String × Nat
  | _, 0 => ("1", 0)
  | [], n + 1 => ("1", n + 1)
  | TickEvent.line s :: rest, n + 1 =>
      if s = "" then tickSucc (runNetLoop rest n) else (s, 1)
  | TickEvent.silent :: rest, n + 1 => tickSucc (runNetLoop rest n)
  | TickEvent.interrupt :: _, _ + 1 => ("1", 1)

/-- Countdown loop of select_smb_version (src/main.py lines 278-310).
Unlike the interface loop, a ready line breaks the loop unconditionally,
empty or not.  Interrupt and timeout both set user_input to the
string 0. -/
def runSmbLoop : List TickEvent → Nat → String × Nat
  | _, 0 => ("0", 0)
  | [], n + 1 => ("0", n + 1)
  | TickEvent.line s :: _, _ + 1 => (s, 1)
  | TickEvent.silent :: rest, n + 1 => tickSucc (runSmbLoop rest n)
  | TickEvent.interrupt :: _, _ + 1 => ("0", 1)

/-- Numeric value of a decimal digit character. -/
def digitVal (c : Char) : Nat := c.toNat - 48

/-- Remaining digits of a Python integer literal: decimal digits with
single underscores allowed between two digits. -/
def pyDigitsAux : List Char → Nat → Option Nat
  | [], acc => some acc
  | '_' :: c :: cs, acc =>
      if c.isDigit then pyDigitsAux cs (acc * 10 + digitVal c) else none
  | ['_'], _ => none
  | c :: cs, acc =>
      if c.isDigit then pyDigitsAux cs (acc * 10 + digitVal c) else none

/-- Digit part of a Python integer literal: at least one digit, then
pyDigitsAux. -/
def pyDigits : List Char → Option Nat
  | [] => none
  | c :: cs => if c.isDigit then pyDigitsAux cs (digitVal c) else none

/-- Python int(s) applied to an already stripped string: an optional
sign followed by decimal digits (single underscores allowed between
digits).  none models the ValueError raised on any other shape. -/
def pyInt (s : String) : Option Int :=
  match s.toList with
  | '-' :: cs => (pyDigits cs).map (fun n => -(n : Int))
  | '+' :: cs => (pyDigits cs).map (fun n => (n : Int))
  | cs => (pyDigits cs).map (fun n => (n : Int))

/-- One menu entry of select_network_binding (key, description, value). -/
structure ChoiceOption where
  key : String
  description : String
  value : String
  deriving DecidableEq, Repr

/-- The options list built by select_network_binding via
enumerate(interfaces, 1): 1-based keys, values are the interface IPs. -/
def netOptionsFrom : Nat → List Interface → List ChoiceOption
  | _, [] => []
  | k, itf :: rest =>
      ⟨toString k, "Bind to " ++ itf.name ++ " (" ++ itf.ip ++ ")", itf.ip⟩
        :: netOptionsFrom (k + 1) rest

/-- Options of select_network_binding, starting enumeration at 1. -/
def netOptions (interfaces : List Interface) : List ChoiceOption :=
  netOptionsFrom 1 interfaces

/-- The bind_interface_name update of select_network_binding: scan the
detected interfaces for the first one whose ip equals the selected
value and store its name, keeping the prior value when none matches;
afterwards a falsy value (None or the empty string) is replaced by the
fixed fallback eth0. -/
def resolveBindName (prior : Option String) (interfaces : List Interface)
    (ip : String) : Option String :=
  match interfaces.find? (fun i => i.ip == ip) with
  | some itf => if itf.name = "" then some ("eth0") else some itf.name
  | none =>
      match prior with
      | some s => if s = "" then some ("eth0") else some s
      | none => some ("eth0")

/-- Placeholder entry for list lookups; never selected on the paths the
code reaches because the options list is non-empty there. -/
def defaultChoice : ChoiceOption := ⟨"", "", ""⟩

/-- Input processing of select_network_binding (src/main.py lines
186-215): choice_index = int(user_input) - 1; an in-range index selects
that option, an out-of-range index selects options[0], and a ValueError
(unparsable input) also selects options[0]. -/
def netSelect (options : List ChoiceOption) (ui : String) : ChoiceOption :=
  match pyInt ui with
  | some n =>
      if 0 ≤ n - 1 ∧ n - 1 < (options.length : Int) then
        options.getD (n - 1).toNat defaultChoice
      else options.headD defaultChoice
  | none => options.headD defaultChoice

/-- Full input processing of select_network_binding: the selected
option value becomes bind_interfaces, and bind_interface_name is
resolved from it against the detected interfaces. -/
def processNetInput (interfaces : List Interface) (prior : Option String)
    (ui : String) : String × Option String :=
  ((netSelect (netOptions interfaces) ui).value,
   resolveBindName prior interfaces (netSelect (netOptions interfaces) ui).value)

/-- Result of select_network_binding: either sys.exit(code) or the pair
of fields (bind_interfaces, bind_interface_name) it assigns. -/
inductive NetOutcome where
  | exited (code : Nat)
  | ok (bindInterfaces : String) (bindInterfaceName : Option String)
  deriving DecidableEq, Repr

/-- select_network_binding (src/main.py lines 122-231): exits with code
1 when no interface was detected, otherwise runs the 60-tick countdown
loop and processes the resulting user_input. -/
def select_network_binding (interfaces : List Interface)
    (events : List TickEvent) (prior : Option String) : NetOutcome :=
  if interfaces.isEmpty then NetOutcome.exited 1
  else
    NetOutcome.ok (processNetInput interfaces prior (runNetLoop events 60).1).1
      (processNetInput interfaces prior (runNetLoop events 60).1).2

/-- bind_interfaces assigned by a NetOutcome, none when it exited. -/
def selectedIp : NetOutcome → Option String
  | NetOutcome.exited _ => none
  | NetOutcome.ok bi _ => some bi

/-- bind_interface_name assigned by a NetOutcome, none when it exited. -/
def selectedName : NetOutcome → Option String
  | NetOutcome.exited _ => none
  | NetOutcome.ok _ nm => nm

/-- One entry of the smb_options table of select_smb_version. -/
structure SmbOption where
  name : String
  min_protocol : String
  max_protocol : String
  deriving DecidableEq, Repr

/-- The smb_options table (src/main.py lines 239-264), displayed with
0-based keys. -/
def smb_options : List SmbOption :=
  [⟨"SMBv1 (NT1)", "NT1", "SMB3"⟩,
   ⟨"SMBv2", "SMB2", "SMB3"⟩,
   ⟨"SMBv3 Only", "SMB3", "SMB3"⟩]

/-- Placeholder entry for list lookups; never selected because the index
is range-checked first. -/
def defaultSmb : SmbOption := ⟨"", "", ""⟩

/-- Input processing of select_smb_version (src/main.py lines 312-330):
choice_index = int(user_input) if user_input else 0, with no offset; an
in-range index selects that option, while ValueError and out-of-range
indices fall back to the SMBv1 defaults NT1 / SMB3. -/
def processSmbInput (ui : String) : String × String :=
  match (if ui = "" then some 0 else pyInt ui) with
  | none => ("NT1", "SMB3")
  | some n =>
      if 0 ≤ n ∧ n < (smb_options.length : Int) then
        ((smb_options.getD n.toNat defaultSmb).min_protocol,
         (smb_options.getD n.toNat defaultSmb).max_protocol)
      else ("NT1", "SMB3")

/-- select_smb_version (src/main.py lines 233-333): 60-second countdown
loop followed by input processing; returns the assigned pair
(smb_min_protocol, smb_max_protocol). -/
def select_smb_version (events : List TickEvent) : String × String :=
  processSmbInput (runSmbLoop events 60).1

/-- Outcome of running one external command: exit status 0, nonzero
exit status (subprocess.CalledProcessError when check=True), or missing
executable (FileNotFoundError). -/
inductive CmdOutcome where
  | ok
  | fail
  | missing
  deriving DecidableEq, Repr

/-- Host facts that get_network_interfaces consults: the outcome of
running ip -4 addr show and, after its nonzero exit, of hostname -I.
The parsing of their stdout into interface records is abstracted as the
env-provided lists ipOut and hostnameOut; the command and exception
structure is modelled exactly. -/
structure NetDetectEnv where
  ipCmd : CmdOutcome
  ipOut : List Interface
  hostnameCmd : CmdOutcome
  hostnameOut : List Interface
  deriving DecidableEq, Repr

/-- get_network_interfaces (src/main.py lines 53-103): run ip -4 addr
show with check=True and parse its output; on CalledProcessError fall
back to hostname -I, and on its CalledProcessError return the empty
list.  A missing executable raises FileNotFoundError in either branch,
which the except clauses (catching only CalledProcessError) do not
absorb, so it propagates. -/
def get_network_interfaces (env : NetDetectEnv) : Except Unit (List Interface) :=
  match env.ipCmd with
  | CmdOutcome.ok => Except.ok env.ipOut
  | CmdOutcome.missing => Except.error ()
  | CmdOutcome.fail =>
      match env.hostnameCmd with
      | CmdOutcome.ok => Except.ok env.hostnameOut
      | CmdOutcome.missing => Except.error ()
      | CmdOutcome.fail => Except.ok []

/-- select_network_binding including its detection call (src/main.py
line 127): an exception from get_network_interfaces propagates out of
the method, and the session then terminates through the catch-all
handler in main via sys.exit(1); otherwise the detected list feeds the
prompt body. -/
def select_network_binding_full (env : NetDetectEnv) (events : List TickEvent)
    (prior : Option String) : Except Unit NetOutcome :=
  match get_network_interfaces env with
  | Except.error _ => Except.error ()
  | Except.ok interfaces =>
      Except.ok (select_network_binding interfaces events prior)

/-- Host facts that get_nobody_user_group consults: the outcome of
running id USER, of getent group GROUP, the SUDO_USER and USER
environment variables (os.getenv returns None when unset), and the
outcome plus stdout of id -gn USER. -/
structure NobodyEnv where
  idCmd : String → CmdOutcome
  getentGroup : String → CmdOutcome
  sudoUser : Option String
  userEnvVar : Option String
  idGn : String → CmdOutcome
  idGnOut : String → String

/-- Python str.strip() over the common whitespace characters: drop
leading and trailing whitespace. -/
def pyStrip (s : String) : String :=
  String.mk (((s.toList.dropWhile Char.isWhitespace).reverse.dropWhile
    Char.isWhitespace).reverse)

/-- Python x or y over optional environment strings: None and the empty
string are falsy. -/
def pyOrElse (a : Option String) (b : String) : String :=
  match a with
  | some s => if s = "" then b else s
  | none => b

/-- The candidate (user, group) pairs tried by get_nobody_user_group, in
source order. -/
def nobody_combinations : List (String × String) :=
  [("nobody", "nobody"), ("nobody", "nogroup"),
   ("nobody", "wheel"), ("nfsnobody", "nfsnobody")]

/-- Fallback of get_nobody_user_group (src/main.py lines 562-577): the
current user (SUDO_USER or USER or root) with the primary group printed
by id -gn; any exception there yields the ultimate fallback root:root
(the except clause catches every exception, so a missing id command is
absorbed here). -/
def nobodyFallback (env : NobodyEnv) : String × String :=
  let current_user := pyOrElse env.sudoUser (pyOrElse env.userEnvVar ("root"))
  match env.idGn current_user with
  | CmdOutcome.ok => (current_user, pyStrip (env.idGnOut current_user))
  | _ => ("root", "root")

/-- Probe loop of get_nobody_user_group (src/main.py lines 550-560): for
each candidate pair run id USER and getent group GROUP with check=True;
a CalledProcessError is caught and the loop continues, but a
FileNotFoundError (missing command) is not caught and propagates. -/
def nobodyGo (env : NobodyEnv) : List (String × String) → Except Unit (String × String)
  | [] => Except.ok (nobodyFallback env)
  | (u, g) :: rest =>
      match env.idCmd u with
      | CmdOutcome.missing => Except.error ()
      | CmdOutcome.fail => nobodyGo env rest
      | CmdOutcome.ok =>
          match env.getentGroup g with
          | CmdOutcome.missing => Except.error ()
          | CmdOutcome.fail => nobodyGo env rest
          | CmdOutcome.ok => Except.ok (u, g)

/-- get_nobody_user_group (src/main.py lines 538-577). -/
def get_nobody_user_group (env : NobodyEnv) : Except Unit (String × String) :=
  nobodyGo env nobody_combinations

/-- Does the character list sub occur contiguously inside s. -/
def pyInAux (sub : List Char) : List Char → Bool
  | [] => sub.isEmpty
  | c :: cs => sub.isPrefixOf (c :: cs) || pyInAux sub cs

/-- Python substring membership a in b. -/
def pyIn (sub s : String) : Bool := pyInAux sub.toList s.toList

/-- Host facts that get_samba_service_names consults: whether systemctl
itself is missing (its run then raises FileNotFoundError, which the
except clauses, covering only CalledProcessError, do not catch), the
stdout of systemctl list-unit-files NAME, and the stdout of the glob
query systemctl list-unit-files with patterns for smb and samba. -/
structure ServiceEnv where
  systemctlMissing : Bool
  unitFilesOut : String → String
  globOut : String

/-- The candidate (smb, nmb) service-name pairs tried by
get_samba_service_names, in source order. -/
def service_combinations : List (String × String) :=
  [("smb", "nmb"), ("smbd", "nmbd"), ("samba", "nmb"), ("samba", "winbind")]

/-- Primary probe loop of get_samba_service_names (src/main.py lines
624-637): a pair is accepted when NAME.service occurs in the stdout of
systemctl list-unit-files NAME.service, checking only the smb name. -/
def serviceLoop (env : ServiceEnv) : List (String × String) → Option (String × Option String)
  | [] => none
  | (smb, nmb) :: rest =>
      if pyIn (smb ++ ".service") (env.unitFilesOut (smb ++ ".service")) then
        some (smb, some nmb)
      else serviceLoop env rest

/-- Alternative detection of get_samba_service_names (src/main.py lines
642-656): substring checks against the glob query output; the samba
branch returns None for the nmb service. -/
def serviceAlt (env : ServiceEnv) : Option (String × Option String) :=
  if pyIn ("smb.service") env.globOut then some ("smb", some ("nmb"))
  else if pyIn ("smbd.service") env.globOut then some ("smbd", some ("nmbd"))
  else if pyIn ("samba.service") env.globOut then some ("samba", none)
  else none

/-- get_samba_service_names (src/main.py lines 611-660): primary probe
loop, then alternative detection, then the default pair (smbd, nmbd).
A missing systemctl raises FileNotFoundError on the first run call. -/
def get_samba_service_names (env : ServiceEnv) : Except Unit (String × Option String) :=
  if env.systemctlMissing then Except.error ()
  else
    match serviceLoop env service_combinations with
    | some r => Except.ok r
    | none =>
        match serviceAlt env with
        | some r => Except.ok r
        | none => Except.ok ("smbd", some ("nmbd"))

/-- Host facts that configure_firewall consults.  osType is the type
field of detect_os.  firewalldConfigOk abstracts the whole firewalld
configuration command sequence (lines 775-808 including the libvirt
zone handling): true when it runs to the return True, false when some
command in it raises CalledProcessError, which line 809 catches before
falling through to the UFW branch. -/
structure FirewallEnv where
  osType : String
  systemctlMissing : Bool
  firewalldActive : Bool
  firewallCmd : CmdOutcome
  firewalldConfigOk : Bool
  ufwWhich : CmdOutcome
  ufwAllowOk : Bool
  iptablesWhich : CmdOutcome
  iptablesOk : Bool
  deriving DecidableEq, Repr

/-- iptables branch of configure_firewall (src/main.py lines 827-843):
which iptables with check=True; a missing which propagates, a nonzero
exit falls through to the final return False, and with iptables present
the rule commands either succeed (return True) or fall through. -/
def fwIptables (env : FirewallEnv) : Except Unit Bool :=
  match env.iptablesWhich with
  | CmdOutcome.missing => Except.error ()
  | CmdOutcome.fail => Except.ok false
  | CmdOutcome.ok => Except.ok env.iptablesOk

/-- UFW branch of configure_firewall (src/main.py lines 814-825):
which ufw with check=True; a missing which propagates, a nonzero exit
moves on to the iptables branch, and with ufw present the allow command
either succeeds (return True) or moves on to the iptables branch. -/
def fwUfw (env : FirewallEnv) : Except Unit Bool :=
  match env.ufwWhich with
  | CmdOutcome.missing => Except.error ()
  | CmdOutcome.fail => fwIptables env
  | CmdOutcome.ok => if env.ufwAllowOk then Except.ok true else fwIptables env

/-- firewalld branch of configure_firewall (src/main.py lines 761-812):
systemctl is-active firewalld (a missing systemctl raises, only
CalledProcessError is caught); when firewalld is active, the probe
firewall-cmd --version with check=True treats both CalledProcessError
and FileNotFoundError as absence and skips to the next firewall. -/
def fwFirewalld (env : FirewallEnv) : Except Unit Bool :=
  if env.systemctlMissing then Except.error ()
  else if env.firewalldActive then
    match env.firewallCmd with
    | CmdOutcome.ok =>
        if env.firewalldConfigOk then Except.ok true else fwUfw env
    | _ => fwUfw env
  else fwUfw env

/-- configure_firewall (src/main.py lines 751-847): Debian systems skip
the firewalld branch entirely. -/
def configure_firewall (env : FirewallEnv) : Except Unit Bool :=
  if env.osType = "debian" then fwUfw env else fwFirewalld env

/-- The filesystem as a map from path to optional file contents. -/
def FS := String → Option String

/-- self.samba_config from the constructor. -/
def samba_config : String := "/etc/samba/smb.conf"

/-- self.backup_config from the constructor. -/
def backup_config : String := "/etc/samba/smb.conf.backup"

/-- os.path.exists on the modelled filesystem. -/
def fsExists (fs : FS) (p : String) : Bool := (fs p).isSome

/-- shutil.copy2: the destination now holds the contents of the source.
The copy is modelled as succeeding; on failure the code exits. -/
def copy2 (fs : FS) (src dst : String) : FS :=
  fun p => if p = dst then fs src else fs p

/-- backup_samba_config (src/main.py lines 464-476): copy the config to
the backup path only when the config exists and no backup exists yet. -/
def backup_samba_config (fs : FS) : FS :=
  if fsExists fs samba_config then
    (if fsExists fs backup_config then fs
     else copy2 fs samba_config backup_config)
  else fs

/-! Helper lemmas about the polling loops. -/

theorem tickSucc_fst (p : String × Nat) : (tickSucc p).1 = p.1 := rfl

theorem runNetLoop_silent (ev : List TickEvent) (n : Nat)
    (h : ∀ e ∈ ev, e = TickEvent.silent) : (runNetLoop ev n).1 = "1" := by
  induction ev generalizing n with
  | nil => cases n <;> rfl
  | cons e rest ih =>
      have he : e = TickEvent.silent := h e (List.mem_cons_self _ _)
      subst he
      cases n with
      | zero => rfl
      | succ m =>
          show (tickSucc (runNetLoop rest m)).1 = "1"
          rw [tickSucc_fst]
          exact ih m (fun x hx => h x (List.mem_cons_of_mem _ hx))

theorem runSmbLoop_silent (ev : List TickEvent) (n : Nat)
    (h : ∀ e ∈ ev, e = TickEvent.silent) : (runSmbLoop ev n).1 = "0" := by
  induction ev generalizing n with
  | nil => cases n <;> rfl
  | cons e rest ih =>
      have he : e = TickEvent.silent := h e (List.mem_cons_self _ _)
      subst he
      cases n with
      | zero => rfl
      | succ m =>
          show (tickSucc (runSmbLoop rest m)).1 = "0"
          rw [tickSucc_fst]
          exact ih m (fun x hx => h x (List.mem_cons_of_mem _ hx))

theorem runNetLoop_line (k n : Nat) (s : String) (hs : s ≠ "")
    (rest : List TickEvent) (h : k + 1 ≤ n) :
    runNetLoop (List.replicate k TickEvent.silent ++ TickEvent.line s :: rest) n
      = (s, k + 1) := by
  induction k generalizing n with
  | zero =>
      cases n with
      | zero => omega
      | succ m =>
          show runNetLoop (TickEvent.line s :: rest) (m + 1) = (s, 1)
          simp [runNetLoop, hs]
  | succ k ih =>
      cases n with
      | zero => omega
      | succ m =>
          rw [List.replicate_succ, List.cons_append]
          show tickSucc (runNetLoop (List.replicate k TickEvent.silent
            ++ TickEvent.line s :: rest) m) = (s, k + 1 + 1)
          rw [ih m (by omega)]
          rfl

theorem runNetLoop_interrupt (k n : Nat) (rest : List TickEvent) (h : k + 1 ≤ n) :
    runNetLoop (List.replicate k TickEvent.silent ++ TickEvent.interrupt :: rest) n
      = ("1", k + 1) := by
  induction k generalizing n with
  | zero =>
      cases n with
      | zero => omega
      | succ m => rfl
  | succ k ih =>
      cases n with
      | zero => omega
      | succ m =>
          rw [List.replicate_succ, List.cons_append]
          show tickSucc (runNetLoop (List.replicate k TickEvent.silent
            ++ TickEvent.interrupt :: rest) m) = ("1", k + 1 + 1)
          rw [ih m (by omega)]
          rfl

theorem runSmbLoop_line (k n : Nat) (s : String) (rest : List TickEvent)
    (h : k + 1 ≤ n) :
    runSmbLoop (List.replicate k TickEvent.silent ++ TickEvent.line s :: rest) n
      = (s, k + 1) := by
  induction k generalizing n with
  | zero =>
      cases n with
      | zero => omega
      | succ m => rfl
  | succ k ih =>
      cases n with
      | zero => omega
      | succ m =>
          rw [List.replicate_succ, List.cons_append]
          show tickSucc (runSmbLoop (List.replicate k TickEvent.silent
            ++ TickEvent.line s :: rest) m) = (s, k + 1 + 1)
          rw [ih m (by omega)]
          rfl

theorem runSmbLoop_interrupt (k n : Nat) (rest : List TickEvent) (h : k + 1 ≤ n) :
    runSmbLoop (List.replicate k TickEvent.silent ++ TickEvent.interrupt :: rest) n
      = ("0", k + 1) := by
  induction k generalizing n with
  | zero =>
      cases n with
      | zero => omega
      | succ m => rfl
  | succ k ih =>
      cases n with
      | zero => omega
      | succ m =>
          rw [List.replicate_succ, List.cons_append]
          show tickSucc (runSmbLoop (List.replicate k TickEvent.silent
            ++ TickEvent.interrupt :: rest) m) = ("0", k + 1 + 1)
          rw [ih m (by omega)]
          rfl

/-! Helper lemmas about option building and input processing. -/

theorem netOptionsFrom_length (k : Nat) (l : List Interface) :
    (netOptionsFrom k l).length = l.length := by
  induction l generalizing k with
  | nil => rfl
  | cons i rest ih => simp [netOptionsFrom, ih]

theorem netOptionsFrom_value_mem (k : Nat) (l : List Interface) (o : ChoiceOption)
    (h : o ∈ netOptionsFrom k l) : o.value ∈ l.map Interface.ip := by
  induction l generalizing k with
  | nil => simp [netOptionsFrom] at h
  | cons i rest ih =>
      rw [netOptionsFrom] at h
      rcases List.mem_cons.mp h with h0 | h0
      · subst h0
        exact List.mem_cons_self _ _
      · exact List.mem_cons_of_mem _ (ih (k + 1) h0)

theorem netSelect_mem (options : List ChoiceOption) (ui : String)
    (h : options ≠ []) : netSelect options ui ∈ options := by
  have hhead : options.headD defaultChoice ∈ options := by
    cases options with
    | nil => exact absurd rfl h
    | cons o os => exact List.mem_cons_self _ _
  unfold netSelect
  cases pyInt ui with
  | none => exact hhead
  | some n =>
      show (if 0 ≤ n - 1 ∧ n - 1 < (options.length : Int) then
          options.getD (n - 1).toNat defaultChoice
        else options.headD defaultChoice) ∈ options
      by_cases hc : 0 ≤ n - 1 ∧ n - 1 < (options.length : Int)
      · rw [if_pos hc]
        have hlt : (n - 1).toNat < options.length := by omega
        rw [List.getD_eq_getElem _ _ hlt]
        exact List.getElem_mem hlt
      · rw [if_neg hc]
        exact hhead

theorem processNetInput_ip_mem (interfaces : List Interface)
    (prior : Option String) (ui : String) (h : interfaces ≠ []) :
    (processNetInput interfaces prior ui).1 ∈ interfaces.map Interface.ip := by
  have hne : netOptions interfaces ≠ [] := by
    cases interfaces with
    | nil => exact absurd rfl h
    | cons i rest => simp [netOptions, netOptionsFrom]
  exact netOptionsFrom_value_mem 1 interfaces _ (netSelect_mem _ ui hne)

theorem processNetInput_snd (interfaces : List Interface)
    (prior : Option String) (ui : String) :
    (processNetInput interfaces prior ui).2
      = resolveBindName prior interfaces (processNetInput interfaces prior ui).1 := rfl

theorem resolveBindName_mem (prior : Option String) (interfaces : List Interface)
    (ip : String) (h : ip ∈ interfaces.map Interface.ip) :
    resolveBindName prior interfaces ip
      ∈ some ("eth0") :: interfaces.map (fun i => some i.name) := by
  obtain ⟨itf0, h0, hip⟩ := List.mem_map.mp h
  have hsome : (interfaces.find? (fun i => i.ip == ip)).isSome := by
    rw [List.find?_isSome]
    exact ⟨itf0, h0, by simp [hip]⟩
  obtain ⟨itf, hfind⟩ := Option.isSome_iff_exists.mp hsome
  unfold resolveBindName
  rw [hfind]
  show (if itf.name = "" then some ("eth0") else some itf.name)
    ∈ some ("eth0") :: interfaces.map (fun i => some i.name)
  by_cases hn : itf.name = ""
  · rw [if_pos hn]
    exact List.mem_cons_self _ _
  · rw [if_neg hn]
    exact List.mem_cons_of_mem _
      (List.mem_map_of_mem _ (List.mem_of_find?_eq_some hfind))

theorem netSelect_one (i : Interface) (rest : List Interface) :
    netSelect (netOptions (i :: rest)) "1"
      = ⟨"1", "Bind to " ++ i.name ++ " (" ++ i.ip ++ ")", i.ip⟩ := by
  have hc : (0 : Int) ≤ 1 - 1 ∧ (1 : Int) - 1 < ((netOptions (i :: rest)).length : Int) := by
    refine ⟨by norm_num, ?_⟩
    have hl := netOptionsFrom_length 1 (i :: rest)
    rw [netOptions, hl]
    simp only [List.length_cons]
    omega
  show (if (0 : Int) ≤ 1 - 1 ∧ (1 : Int) - 1 < ((netOptions (i :: rest)).length : Int) then
      (netOptions (i :: rest)).getD ((1 : Int) - 1).toNat defaultChoice
    else (netOptions (i :: rest)).headD defaultChoice) = _
  rw [if_pos hc]
  rfl

theorem processNetInput_one_fst (i : Interface) (rest : List Interface)
    (prior : Option String) :
    (processNetInput (i :: rest) prior "1").1 = i.ip := by
  show (netSelect (netOptions (i :: rest)) "1").value = i.ip
  rw [netSelect_one]

theorem netSelect_second_of_three (a b c : Interface) :
    netSelect (netOptions [a, b, c]) "2"
      = ⟨"2", "Bind to " ++ b.name ++ " (" ++ b.ip ++ ")", b.ip⟩ := by
  have hc : (0 : Int) ≤ 2 - 1 ∧ (2 : Int) - 1 < ((netOptions [a, b, c]).length : Int) := by
    refine ⟨by norm_num, ?_⟩
    have hl := netOptionsFrom_length 1 [a, b, c]
    rw [netOptions, hl]
    norm_num
  show (if (0 : Int) ≤ 2 - 1 ∧ (2 : Int) - 1 < ((netOptions [a, b, c]).length : Int) then
      (netOptions [a, b, c]).getD ((2 : Int) - 1).toNat defaultChoice
    else (netOptions [a, b, c]).headD defaultChoice) = _
  rw [if_pos hc]
  rfl

theorem processSmbInput_zero : processSmbInput "0" = ("NT1", "SMB3") := rfl

theorem processSmbInput_two : processSmbInput "2" = ("SMB3", "SMB3") := rfl

/-! Helper lemmas about the cascading resolvers. -/

theorem nobodyGo_no_missing (env : NobodyEnv) (l : List (String × String))
    (hid : ∀ u, env.idCmd u ≠ CmdOutcome.missing)
    (hge : ∀ g, env.getentGroup g ≠ CmdOutcome.missing) :
    nobodyGo env l = Except.ok
      ((l.find? (fun p => env.idCmd p.1 == CmdOutcome.ok
          && env.getentGroup p.2 == CmdOutcome.ok)).getD (nobodyFallback env)) := by
  induction l with
  | nil => rfl
  | cons p rest ih =>
      obtain ⟨u, g⟩ := p
      cases hcu : env.idCmd u with
      | missing => exact absurd hcu (hid u)
      | fail =>
          have hstep : nobodyGo env ((u, g) :: rest) = nobodyGo env rest := by
            conv_lhs => rw [nobodyGo, hcu]
          rw [hstep, ih, List.find?_cons_of_neg]
          simp [hcu]
      | ok =>
          cases hcg : env.getentGroup g with
          | missing => exact absurd hcg (hge g)
          | fail =>
              have hstep : nobodyGo env ((u, g) :: rest) = nobodyGo env rest := by
                conv_lhs => rw [nobodyGo, hcu, hcg]
              rw [hstep, ih, List.find?_cons_of_neg]
              simp [hcu, hcg]
          | ok =>
              have hstep : nobodyGo env ((u, g) :: rest) = Except.ok (u, g) := by
                conv_lhs => rw [nobodyGo, hcu, hcg]
              rw [hstep]
              simp [List.find?_cons, hcu, hcg]

theorem serviceLoop_eq_find (env : ServiceEnv) (l : List (String × String)) :
    serviceLoop env l
      = (l.find? (fun p => pyIn (p.1 ++ ".service")
          (env.unitFilesOut (p.1 ++ ".service")))).map (fun p => (p.1, some p.2)) := by
  induction l with
  | nil => rfl
  | cons p rest ih =>
      obtain ⟨smb, nmb⟩ := p
      by_cases hc : pyIn (smb ++ ".service") (env.unitFilesOut (smb ++ ".service")) = true
      · have hstep : serviceLoop env ((smb, nmb) :: rest) = some (smb, some nmb) := by
          conv_lhs => rw [serviceLoop]
          rw [if_pos hc]
        rw [hstep]
        simp [List.find?_cons, hc]
      · have hstep : serviceLoop env ((smb, nmb) :: rest) = serviceLoop env rest := by
          conv_lhs => rw [serviceLoop]
          rw [if_neg hc]
        rw [hstep, ih, List.find?_cons_of_neg]
        simpa using hc

/-! Concrete fixtures used by witnesses and counterexamples. -/

/-- A host with one detected interface. -/
def ifEth0 : Interface := ⟨"eth0", "10.0.0.7", "10.0.0.7/24"⟩

/-- First of three detected interfaces. -/
def ifA : Interface := ⟨"eth0", "10.0.0.1", "10.0.0.1/24"⟩

/-- Second of three detected interfaces. -/
def ifB : Interface := ⟨"eth1", "10.0.0.2", "10.0.0.2/24"⟩

/-- Third of three detected interfaces. -/
def ifC : Interface := ⟨"wlan0", "10.0.0.3", "10.0.0.3/24"⟩

/-- A host where every probing command succeeds. -/
def nobodyEnvAll : NobodyEnv where
  idCmd := fun _ => CmdOutcome.ok
  getentGroup := fun _ => CmdOutcome.ok
  sudoUser := none
  userEnvVar := none
  idGn := fun _ => CmdOutcome.ok
  idGnOut := fun _ => "users"

/-- A host where the id executable is missing entirely. -/
def nobodyEnvNoId : NobodyEnv where
  idCmd := fun _ => CmdOutcome.missing
  getentGroup := fun _ => CmdOutcome.ok
  sudoUser := none
  userEnvVar := none
  idGn := fun _ => CmdOutcome.ok
  idGnOut := fun _ => "root"

/-- A host where id works only for the user nfsnobody and is missing on
all other invocations. -/
def nobodyEnvPartial : NobodyEnv where
  idCmd := fun u => if u = "nfsnobody" then CmdOutcome.ok else CmdOutcome.missing
  getentGroup := fun _ => CmdOutcome.ok
  sudoUser := none
  userEnvVar := none
  idGn := fun _ => CmdOutcome.ok
  idGnOut := fun _ => "root"

/-- A host where every id probe exits nonzero. -/
def nobodyEnvFailAll : NobodyEnv where
  idCmd := fun _ => CmdOutcome.fail
  getentGroup := fun _ => CmdOutcome.ok
  sudoUser := none
  userEnvVar := none
  idGn := fun _ => CmdOutcome.fail
  idGnOut := fun _ => ""

/-- A host whose systemctl echoes the queried unit name, so the first
service combination matches. -/
def serviceEnvEcho : ServiceEnv where
  systemctlMissing := false
  unitFilesOut := fun s => s
  globOut := ""

/-- A host without systemctl. -/
def serviceEnvNoSystemctl : ServiceEnv where
  systemctlMissing := true
  unitFilesOut := fun _ => ""
  globOut := ""

/-- A Fedora-like host with firewalld active but firewall-cmd missing,
and without ufw or iptables. -/
def fwEnvNoCmd : FirewallEnv where
  osType := "fedora"
  systemctlMissing := false
  firewalldActive := true
  firewallCmd := CmdOutcome.missing
  firewalldConfigOk := true
  ufwWhich := CmdOutcome.fail
  ufwAllowOk := true
  iptablesWhich := CmdOutcome.fail
  iptablesOk := true

/-- A filesystem holding only the Samba config, with no backup yet. -/
def fs0 : FS := fun p => if p = samba_config then some ("original config") else none

/-- Detection succeeding with no usable interface. -/
def netEnvEmpty : NetDetectEnv where
  ipCmd := CmdOutcome.ok
  ipOut := []
  hostnameCmd := CmdOutcome.ok
  hostnameOut := []

/-- Detection succeeding with one interface. -/
def netEnvOk : NetDetectEnv where
  ipCmd := CmdOutcome.ok
  ipOut := [ifEth0]
  hostnameCmd := CmdOutcome.ok
  hostnameOut := []

/-- A host that has an interface but no ip executable (the ipOut field
is what detection would have parsed; it is unreachable on this path). -/
def netEnvIpMissing : NetDetectEnv where
  ipCmd := CmdOutcome.missing
  ipOut := [ifEth0]
  hostnameCmd := CmdOutcome.ok
  hostnameOut := [ifEth0]

/-- A host where ip exits nonzero and hostname is missing. -/
def netEnvNoHostname : NetDetectEnv where
  ipCmd := CmdOutcome.fail
  ipOut := []
  hostnameCmd := CmdOutcome.missing
  hostnameOut := []

/-! Claim theorems. -/

/-- Claim C1: when no line of input arrives before the timeout (every
polling tick is silent), the interface prompt resolves to the option at
defaultIndex, namely the first detected interface, and the protocol
prompt resolves to option 0, the SMBv1-compatibility option with
min protocol NT1 and max protocol SMB3. -/
theorem C1_timeout_selects_default (interfaces : List Interface)
    (prior : Option String) (ev1 ev2 : List TickEvent) (h : interfaces ≠ [])
    (h1 : ∀ e ∈ ev1, e = TickEvent.silent) (h2 : ∀ e ∈ ev2, e = TickEvent.silent) :
    selectedIp (select_network_binding interfaces ev1 prior)
        = some ((interfaces.headD ⟨"", "", ""⟩).ip)
      ∧ select_smb_version ev2 = ("NT1", "SMB3") := by
  constructor
  · cases interfaces with
    | nil => exact absurd rfl h
    | cons i rest =>
        have hui := runNetLoop_silent ev1 60 h1
        unfold select_network_binding
        rw [if_neg (by simp)]
        show some ((processNetInput (i :: rest) prior
          (runNetLoop ev1 60).1).1) = some (((i :: rest).headD ⟨"", "", ""⟩).ip)
        rw [hui, processNetInput_one_fst]
        rfl
  · have hui := runSmbLoop_silent ev2 60 h2
    unfold select_smb_version
    rw [hui]
    exact processSmbInput_zero

/-- Witness for C1 at a one-interface host and a fully silent trace. -/
theorem C1_witness :
    selectedIp (select_network_binding [ifEth0] [TickEvent.silent] none)
        = some ("10.0.0.7")
      ∧ select_smb_version [TickEvent.silent] = ("NT1", "SMB3") := by
  have h := C1_timeout_selects_default [ifEth0] none [TickEvent.silent]
    [TickEvent.silent] (List.cons_ne_nil _ _)
    (fun e he => List.mem_singleton.mp he)
    (fun e he => List.mem_singleton.mp he)
  exact ⟨h.1.trans rfl, h.2⟩

/-- Claim C2 counterexample: the resolvers can fail.  On a host whose id
command is missing, get_nobody_user_group propagates the exception
instead of returning its terminal fallback (which is well defined there,
root:root); likewise get_samba_service_names propagates when systemctl
is missing instead of returning the default pair. -/
theorem C2_counterexample :
    get_nobody_user_group nobodyEnvNoId = Except.error ()
  ∧ nobodyFallback nobodyEnvNoId = ("root", "root")
  ∧ get_samba_service_names serviceEnvNoSystemctl = Except.error () :=
  ⟨rfl, rfl, rfl⟩

/-- Claim C2 (amended): when every probing command is available, the
cascades evaluate their probe lists front to back and return the result
paired with the first true predicate, else the terminal fallback:
get_nobody_user_group returns the first candidate pair whose user and
group probes both succeed, else its fallback; get_samba_service_names
returns the first combination whose smb unit file is listed, else the
alternative-detection result, defaulting to (smbd, nmbd). -/
theorem C2_first_match_or_fallback (env : NobodyEnv) (senv : ServiceEnv)
    (hid : ∀ u, env.idCmd u ≠ CmdOutcome.missing)
    (hge : ∀ g, env.getentGroup g ≠ CmdOutcome.missing)
    (hsc : senv.systemctlMissing = false) :
    get_nobody_user_group env = Except.ok
      ((nobody_combinations.find? (fun p => env.idCmd p.1 == CmdOutcome.ok
          && env.getentGroup p.2 == CmdOutcome.ok)).getD (nobodyFallback env))
  ∧ get_samba_service_names senv = Except.ok
      (((service_combinations.find? (fun p => pyIn (p.1 ++ ".service")
          (senv.unitFilesOut (p.1 ++ ".service")))).map
            (fun p => (p.1, some p.2))).getD
        ((serviceAlt senv).getD ("smbd", some ("nmbd")))) := by
  constructor
  · exact nobodyGo_no_missing env nobody_combinations hid hge
  · unfold get_samba_service_names
    rw [hsc]
    rw [if_neg (fun hc => Bool.false_ne_true hc)]
    rw [serviceLoop_eq_find]
    cases hf : service_combinations.find? (fun p => pyIn (p.1 ++ ".service")
        (senv.unitFilesOut (p.1 ++ ".service"))) with
    | some r => simp
    | none =>
        cases halt : serviceAlt senv with
        | some r => simp [halt]
        | none => simp [halt]

/-- Witness for the amended C2: on a host where all probes succeed the
first candidate wins in both cascades. -/
theorem C2_witness :
    get_nobody_user_group nobodyEnvAll = Except.ok ("nobody", "nobody")
  ∧ get_samba_service_names serviceEnvEcho = Except.ok ("smb", some ("nmb")) := by
  have h := C2_first_match_or_fallback nobodyEnvAll serviceEnvEcho
    (fun u hu => nomatch hu) (fun g hg => nomatch hg) rfl
  exact ⟨h.1.trans rfl, h.2.trans rfl⟩

/-- Claim C3 counterexample: the protocol prompt displays 0-based keys
and applies int(user_input) with no offset, so for that 3-option prompt
the input line 2 selects the option at 0-based index 2 (SMBv3 Only,
protocols SMB3 / SMB3), not the option at index 1 (whose min protocol
is SMB2). -/
theorem C3_counterexample :
    select_smb_version [TickEvent.line "2"] = ("SMB3", "SMB3")
  ∧ (smb_options.getD 1 defaultSmb).min_protocol = "SMB2"
  ∧ (("SMB3" : String), ("SMB3" : String)) ≠ (("SMB2" : String), ("SMB3" : String)) :=
  ⟨rfl, rfl, by decide⟩

/-- Claim C3 (amended): the interface prompt uses 1-based keys, so over
a 3-option interface list the input line 2 arriving at tick k + 1
resolves to 0-based index 1 within one tick of arrival; the protocol
prompt uses 0-based keys, so the same line resolves there to 0-based
index 2, also within one tick of arrival. -/
theorem C3_key_mapping (a b c : Interface) (prior : Option String) (k : Nat)
    (h : k + 1 ≤ 60) :
    select_network_binding [a, b, c]
        (List.replicate k TickEvent.silent ++ [TickEvent.line "2"]) prior
      = NetOutcome.ok b.ip (resolveBindName prior [a, b, c] b.ip)
  ∧ runNetLoop (List.replicate k TickEvent.silent ++ [TickEvent.line "2"]) 60
      = ("2", k + 1)
  ∧ select_smb_version (List.replicate k TickEvent.silent ++ [TickEvent.line "2"])
      = ("SMB3", "SMB3")
  ∧ runSmbLoop (List.replicate k TickEvent.silent ++ [TickEvent.line "2"]) 60
      = ("2", k + 1) := by
  have hnet := runNetLoop_line k 60 ("2") (by decide) [] h
  have hsmb := runSmbLoop_line k 60 ("2") [] h
  have hnet1 : (runNetLoop (List.replicate k TickEvent.silent
      ++ [TickEvent.line "2"]) 60).1 = "2" := by rw [hnet]
  have hsmb1 : (runSmbLoop (List.replicate k TickEvent.silent
      ++ [TickEvent.line "2"]) 60).1 = "2" := by rw [hsmb]
  refine ⟨?_, hnet, ?_, hsmb⟩
  · have h1 : (processNetInput [a, b, c] prior ("2")).1 = b.ip := by
      show (netSelect (netOptions [a, b, c]) "2").value = b.ip
      rw [netSelect_second_of_three]
    have h2 : (processNetInput [a, b, c] prior ("2")).2
        = resolveBindName prior [a, b, c] b.ip := by
      rw [processNetInput_snd, h1]
    unfold select_network_binding
    rw [if_neg (by simp)]
    rw [hnet1, h1, h2]
  · unfold select_smb_version
    rw [hsmb1]
    exact processSmbInput_two

/-- Witness for the amended C3 with the line arriving at tick 3. -/
theorem C3_witness :
    select_network_binding [ifA, ifB, ifC]
        (List.replicate 2 TickEvent.silent ++ [TickEvent.line "2"]) none
      = NetOutcome.ok ("10.0.0.2") (some ("eth1"))
  ∧ runSmbLoop (List.replicate 2 TickEvent.silent ++ [TickEvent.line "2"]) 60
      = ("2", 3) := by
  have h := C3_key_mapping ifA ifB ifC none 2 (by omega)
  exact ⟨h.1.trans rfl, h.2.2.2⟩

/-- Claim C4: any input line that fails to parse as an integer, or whose
mapped index (int minus 1 for the interface prompt, int itself for the
protocol prompt) is outside the valid option range, resolves to the
option at defaultIndex; the embedding is total, matching the except
clauses that absorb ValueError and IndexError. -/
theorem C4_invalid_input_selects_default :
    (∀ (interfaces : List Interface) (prior : Option String) (s : String),
        (pyInt s = none ∨ ∀ n : Int, pyInt s = some n →
            ¬(0 ≤ n - 1 ∧ n - 1 < ((netOptions interfaces).length : Int))) →
        processNetInput interfaces prior s
          = (((netOptions interfaces).headD defaultChoice).value,
             resolveBindName prior interfaces
               ((netOptions interfaces).headD defaultChoice).value))
  ∧ (∀ s : String,
        (pyInt s = none ∨ ∀ n : Int, pyInt s = some n →
            ¬(0 ≤ n ∧ n < (smb_options.length : Int))) →
        processSmbInput s = ("NT1", "SMB3")) := by
  constructor
  · intro interfaces prior s hs
    have hsel : netSelect (netOptions interfaces) s
        = (netOptions interfaces).headD defaultChoice := by
      unfold netSelect
      cases hpi : pyInt s with
      | none => rfl
      | some n =>
          rcases hs with hno | hbound
          · rw [hno] at hpi
            exact nomatch hpi
          · show (if 0 ≤ n - 1 ∧ n - 1 < ((netOptions interfaces).length : Int) then
                (netOptions interfaces).getD (n - 1).toNat defaultChoice
              else (netOptions interfaces).headD defaultChoice)
              = (netOptions interfaces).headD defaultChoice
            rw [if_neg (hbound n hpi)]
    show ((netSelect (netOptions interfaces) s).value,
        resolveBindName prior interfaces (netSelect (netOptions interfaces) s).value)
      = _
    rw [hsel]
  · intro s hs
    by_cases he : s = ""
    · subst he
      rfl
    · unfold processSmbInput
      rw [if_neg he]
      cases hpi : pyInt s with
      | none => rfl
      | some n =>
          rcases hs with hno | hbound
          · rw [hno] at hpi
            exact nomatch hpi
          · show (if 0 ≤ n ∧ n < (smb_options.length : Int) then
                ((smb_options.getD n.toNat defaultSmb).min_protocol,
                 (smb_options.getD n.toNat defaultSmb).max_protocol)
              else ("NT1", "SMB3")) = ("NT1", "SMB3")
            rw [if_neg (hbound n hpi)]

/-- Witness for C4: an unparsable line on the interface prompt and an
out-of-range index on the protocol prompt both yield the defaults. -/
theorem C4_witness :
    processNetInput [ifA] none "abc" = (("10.0.0.1"), some ("eth0"))
  ∧ processSmbInput "7" = ("NT1", "SMB3") := by
  constructor
  · have h := C4_invalid_input_selects_default.1 [ifA] none ("abc") (Or.inl rfl)
    exact h.trans rfl
  · exact C4_invalid_input_selects_default.2 ("7")
      (Or.inr (fun n hn => by
        have h7 : pyInt "7" = some 7 := rfl
        rw [h7] at hn
        obtain rfl : (7 : Int) = n := Option.some.inj hn
        decide))

/-- Claim C5 counterexample: a probe whose command is missing is not
treated as false.  With id missing for the user nobody,
get_nobody_user_group propagates the exception instead of proceeding to
the later candidate (nfsnobody, nfsnobody), which would have
succeeded. -/
theorem C5_counterexample :
    get_nobody_user_group nobodyEnvPartial = Except.error ()
  ∧ nobodyGo nobodyEnvPartial [("nfsnobody", "nfsnobody")]
      = Except.ok ("nfsnobody", "nfsnobody") :=
  ⟨rfl, rfl⟩

/-- Claim C5 (amended): a probe that exits nonzero (CalledProcessError)
is treated as false and the cascade proceeds to the next candidate, and
the firewall-cmd availability probe of configure_firewall also treats a
missing command as absence, skipping to the next firewall; but in
get_nobody_user_group a missing probing command propagates as an
exception.  When no probing command is missing the resolver always
produces a value. -/
theorem C5_probe_error_handling :
    (∀ (env : NobodyEnv) (u g : String) (rest : List (String × String)),
        env.idCmd u = CmdOutcome.fail →
        nobodyGo env ((u, g) :: rest) = nobodyGo env rest)
  ∧ (∀ (env : NobodyEnv) (u g : String) (rest : List (String × String)),
        env.idCmd u = CmdOutcome.ok → env.getentGroup g = CmdOutcome.fail →
        nobodyGo env ((u, g) :: rest) = nobodyGo env rest)
  ∧ (∀ env : FirewallEnv, env.osType ≠ "debian" →
        env.systemctlMissing = false → env.firewallCmd ≠ CmdOutcome.ok →
        configure_firewall env = fwUfw env)
  ∧ (∀ env : NobodyEnv, (∀ u, env.idCmd u ≠ CmdOutcome.missing) →
        (∀ g, env.getentGroup g ≠ CmdOutcome.missing) →
        ∃ r, get_nobody_user_group env = Except.ok r) := by
  refine ⟨?_, ?_, ?_, ?_⟩
  · intro env u g rest hcu
    conv_lhs => rw [nobodyGo, hcu]
  · intro env u g rest hcu hcg
    conv_lhs => rw [nobodyGo, hcu, hcg]
  · intro env hos hsm hcmd
    unfold configure_firewall
    rw [if_neg hos]
    unfold fwFirewalld
    rw [hsm]
    rw [if_neg (fun hc => Bool.false_ne_true hc)]
    cases hact : env.firewalldActive with
    | false => simp
    | true =>
        cases hc2 : env.firewallCmd with
        | ok => exact absurd hc2 hcmd
        | fail => simp
        | missing => simp
  · intro env hid hge
    exact ⟨_, nobodyGo_no_missing env nobody_combinations hid hge⟩

/-- Witness for the amended C5: a nonzero-exit probe is skipped, a
missing firewall-cmd falls through to the UFW branch, and a host with
all probing commands present always resolves. -/
theorem C5_witness :
    nobodyGo nobodyEnvFailAll [("nobody", "nobody")] = nobodyGo nobodyEnvFailAll []
  ∧ configure_firewall fwEnvNoCmd = fwUfw fwEnvNoCmd
  ∧ ∃ r, get_nobody_user_group nobodyEnvFailAll = Except.ok r :=
  ⟨C5_probe_error_handling.1 nobodyEnvFailAll ("nobody") ("nobody") [] rfl,
   C5_probe_error_handling.2.2.1 fwEnvNoCmd (by decide) rfl (by decide),
   C5_probe_error_handling.2.2.2 nobodyEnvFailAll
     (fun u hu => nomatch hu) (fun g hg => nomatch hg)⟩

/-- Claim C6: a KeyboardInterrupt / EOFError during the wait resolves
both prompts to the option at defaultIndex without terminating the
session: the interface prompt yields the first detected interface (the
caught handler sets user_input to the key 1) and the protocol prompt
yields the SMBv1 defaults (its handler sets user_input to the key 0).
The NetOutcome.ok result, rather than NetOutcome.exited, shows that the
interrupt is non-fatal. -/
theorem C6_interrupt_selects_default (interfaces : List Interface)
    (prior : Option String) (k : Nat) (rest1 rest2 : List TickEvent)
    (h : interfaces ≠ []) (hk : k + 1 ≤ 60) :
    selectedIp (select_network_binding interfaces
        (List.replicate k TickEvent.silent ++ TickEvent.interrupt :: rest1) prior)
      = some ((interfaces.headD ⟨"", "", ""⟩).ip)
  ∧ select_smb_version (List.replicate k TickEvent.silent
        ++ TickEvent.interrupt :: rest2)
      = ("NT1", "SMB3") := by
  constructor
  · cases interfaces with
    | nil => exact absurd rfl h
    | cons i irest =>
        have hui : (runNetLoop (List.replicate k TickEvent.silent
            ++ TickEvent.interrupt :: rest1) 60).1 = "1" := by
          rw [runNetLoop_interrupt k 60 rest1 hk]
        unfold select_network_binding
        rw [if_neg (by simp)]
        show some ((processNetInput (i :: irest) prior
            (runNetLoop (List.replicate k TickEvent.silent
              ++ TickEvent.interrupt :: rest1) 60).1).1)
          = some (((i :: irest).headD ⟨"", "", ""⟩).ip)
        rw [hui, processNetInput_one_fst]
        rfl
  · have hui : (runSmbLoop (List.replicate k TickEvent.silent
        ++ TickEvent.interrupt :: rest2) 60).1 = "0" := by
      rw [runSmbLoop_interrupt k 60 rest2 hk]
    unfold select_smb_version
    rw [hui]
    exact processSmbInput_zero

/-- Witness for C6 with the interrupt arriving at tick 2. -/
theorem C6_witness :
    selectedIp (select_network_binding [ifEth0]
        (List.replicate 1 TickEvent.silent ++ TickEvent.interrupt :: []) none)
      = some ("10.0.0.7")
  ∧ select_smb_version (List.replicate 1 TickEvent.silent
        ++ TickEvent.interrupt :: [])
      = ("NT1", "SMB3") := by
  have h := C6_interrupt_selects_default [ifEth0] none 1 [] []
    (List.cons_ne_nil _ _) (by omega)
  exact ⟨h.1.trans rfl, h.2⟩

/-- Claim C7 counterexample: in the protocol prompt an empty input line
does end the polling loop.  On the trace empty-line-then-line-2 the smb
loop stops after one tick with the empty line, resolving to the default
instead of reading the 2, while the interface loop on the same trace
skips the empty line and returns the 2 at tick two. -/
theorem C7_counterexample :
    runSmbLoop [TickEvent.line "", TickEvent.line "2"] 60 = ("", 1)
  ∧ select_smb_version [TickEvent.line "", TickEvent.line "2"] = ("NT1", "SMB3")
  ∧ runNetLoop [TickEvent.line "", TickEvent.line "2"] 60 = ("2", 2) :=
  ⟨rfl, rfl, rfl⟩

/-- Claim C7 (amended): in the interface prompt a non-empty ready line
stops polling immediately (one tick, later events ignored) and an empty
ready line does not stop polling; in the protocol prompt any ready
line, the empty line included, stops polling immediately. -/
theorem C7_polling_stop :
    (∀ (s : String) (rest : List TickEvent) (n : Nat), s ≠ "" →
        runNetLoop (TickEvent.line s :: rest) (n + 1) = (s, 1))
  ∧ (∀ (rest : List TickEvent) (n : Nat),
        (runNetLoop (TickEvent.line "" :: rest) (n + 1)).1 = (runNetLoop rest n).1
      ∧ (runNetLoop (TickEvent.line "" :: rest) (n + 1)).2
          = (runNetLoop rest n).2 + 1)
  ∧ (∀ (s : String) (rest : List TickEvent) (n : Nat),
        runSmbLoop (TickEvent.line s :: rest) (n + 1) = (s, 1)) := by
  refine ⟨?_, ?_, ?_⟩
  · intro s rest n hs
    show (if s = "" then tickSucc (runNetLoop rest n) else (s, 1)) = (s, 1)
    rw [if_neg hs]
  · intro rest n
    refine ⟨?_, ?_⟩ <;> simp [runNetLoop, tickSucc]
  · intro s rest n
    rfl

/-- Witness for the amended C7. -/
theorem C7_witness :
    runNetLoop [TickEvent.line "5"] 1 = ("5", 1)
  ∧ (runNetLoop [TickEvent.line "", TickEvent.silent] 2).1
      = (runNetLoop [TickEvent.silent] 1).1
  ∧ runSmbLoop [TickEvent.line ""] 1 = ("", 1) :=
  ⟨C7_polling_stop.1 ("5") [] 0 (by decide),
   (C7_polling_stop.2.1 [TickEvent.silent] 1).1,
   C7_polling_stop.2.2 ("") [] 0⟩

/-- Claim C8 counterexample: the empty detected list is not the only
fatal prompt-path condition.  On a host that has an interface but no
ip executable, the detection call at the top of select_network_binding
raises FileNotFoundError (the except clause catches only
CalledProcessError) and the session terminates through the catch-all
handler in main, even though the prompt body over that same interface
list would not exit. -/
theorem C8_counterexample :
    select_network_binding_full netEnvIpMissing [] none = Except.error ()
  ∧ select_network_binding netEnvIpMissing.ipOut [] none ≠ NetOutcome.exited 1 := by
  refine ⟨rfl, ?_⟩
  decide

/-- Claim C8 (amended): when detection completes without exception and
yields an empty interface list, select_network_binding terminates the
session with the clear diagnostic and exit code 1, and a successful
non-empty detection never exits or raises; but the empty list is not
the only fatal prompt-path condition: a missing ip executable, or a
missing hostname executable after ip exits nonzero, makes
select_network_binding propagate FileNotFoundError out of its
detection call, terminating the session through the catch-all handler
in main. -/
theorem C8_fatal_conditions :
    (∀ (env : NetDetectEnv) (ev : List TickEvent) (prior : Option String),
        get_network_interfaces env = Except.ok [] →
        select_network_binding_full env ev prior
          = Except.ok (NetOutcome.exited 1))
  ∧ (∀ (env : NetDetectEnv) (ev : List TickEvent) (prior : Option String)
        (l : List Interface), get_network_interfaces env = Except.ok l → l ≠ [] →
        (∀ code, select_network_binding_full env ev prior
            ≠ Except.ok (NetOutcome.exited code))
      ∧ select_network_binding_full env ev prior ≠ Except.error ())
  ∧ (∀ (env : NetDetectEnv) (ev : List TickEvent) (prior : Option String),
        env.ipCmd = CmdOutcome.missing →
        select_network_binding_full env ev prior = Except.error ())
  ∧ (∀ (env : NetDetectEnv) (ev : List TickEvent) (prior : Option String),
        env.ipCmd = CmdOutcome.fail → env.hostnameCmd = CmdOutcome.missing →
        select_network_binding_full env ev prior = Except.error ()) := by
  refine ⟨?_, ?_, ?_, ?_⟩
  · intro env ev prior h
    unfold select_network_binding_full
    rw [h]
    rfl
  · intro env ev prior l h hne
    have hfull : select_network_binding_full env ev prior
        = Except.ok (select_network_binding l ev prior) := by
      unfold select_network_binding_full
      rw [h]
    refine ⟨?_, ?_⟩
    · intro code hc
      rw [hfull] at hc
      have hq : select_network_binding l ev prior = NetOutcome.exited code :=
        Except.ok.inj hc
      cases l with
      | nil => exact absurd rfl hne
      | cons i rest =>
          unfold select_network_binding at hq
          rw [if_neg (by simp)] at hq
          exact NetOutcome.noConfusion hq
    · rw [hfull]
      intro hc
      exact Except.noConfusion hc
  · intro env ev prior h
    have hd : get_network_interfaces env = Except.error () := by
      unfold get_network_interfaces
      rw [h]
    unfold select_network_binding_full
    rw [hd]
  · intro env ev prior h1 h2
    have hd : get_network_interfaces env = Except.error () := by
      unfold get_network_interfaces
      rw [h1, h2]
    unfold select_network_binding_full
    rw [hd]

/-- Witness for the amended C8 at four concrete hosts: empty detection
exits with code 1, successful detection never exits, and the two
missing-command hosts propagate the detection exception. -/
theorem C8_witness :
    select_network_binding_full netEnvEmpty [] none
        = Except.ok (NetOutcome.exited 1)
  ∧ select_network_binding_full netEnvOk [] none
        ≠ Except.ok (NetOutcome.exited 1)
  ∧ select_network_binding_full netEnvIpMissing [TickEvent.silent] none
        = Except.error ()
  ∧ select_network_binding_full netEnvNoHostname [] none = Except.error () :=
  ⟨C8_fatal_conditions.1 netEnvEmpty [] none rfl,
   (C8_fatal_conditions.2.1 netEnvOk [] none [ifEth0] rfl
     (List.cons_ne_nil _ _)).1 1,
   C8_fatal_conditions.2.2.1 netEnvIpMissing [TickEvent.silent] none rfl,
   C8_fatal_conditions.2.2.2 netEnvNoHostname [] none rfl rfl⟩

/-- Claim C9: whenever select_network_binding returns (any resolution
path, any event trace), bind_interfaces is the IP of one of the
detected interfaces and bind_interface_name is set, either to the name
of an interface with the selected IP or to the fixed fallback eth0;
membership in the lists of defined values also shows the outcome is not
an exit. -/
theorem C9_bind_fields_invariant (interfaces : List Interface)
    (ev : List TickEvent) (prior : Option String) (h : interfaces ≠ []) :
    selectedIp (select_network_binding interfaces ev prior)
        ∈ interfaces.map (fun i => some i.ip)
  ∧ selectedName (select_network_binding interfaces ev prior)
        ∈ some ("eth0") :: interfaces.map (fun i => some i.name) := by
  have hip := processNetInput_ip_mem interfaces prior (runNetLoop ev 60).1 h
  have hname := resolveBindName_mem prior interfaces _ hip
  have hnotemp : ¬(interfaces.isEmpty = true) := by
    cases interfaces with
    | nil => exact absurd rfl h
    | cons i rest => simp
  constructor
  · unfold select_network_binding
    rw [if_neg hnotemp]
    show some ((processNetInput interfaces prior (runNetLoop ev 60).1).1)
      ∈ interfaces.map (fun i => some i.ip)
    obtain ⟨i0, hi0, hip0⟩ := List.mem_map.mp hip
    exact List.mem_map.mpr ⟨i0, hi0, by rw [hip0]⟩
  · unfold select_network_binding
    rw [if_neg hnotemp]
    show (processNetInput interfaces prior (runNetLoop ev 60).1).2
      ∈ some ("eth0") :: interfaces.map (fun i => some i.name)
    rw [processNetInput_snd]
    exact hname

/-- Witness for C9 at an out-of-range input. -/
theorem C9_witness :
    selectedIp (select_network_binding [ifEth0] [TickEvent.line "9"] none)
        ∈ [ifEth0].map (fun i => some i.ip)
  ∧ selectedName (select_network_binding [ifEth0] [TickEvent.line "9"] none)
        ∈ some ("eth0") :: [ifEth0].map (fun i => some i.name) :=
  C9_bind_fields_invariant [ifEth0] [TickEvent.line "9"] none (List.cons_ne_nil _ _)

/-- Claim C10: backup_samba_config copies the config to the backup path
only when the config exists and no backup exists yet; an existing
backup leaves the filesystem untouched (the first backup is never
overwritten), a missing config leaves it untouched, and when the copy
happens every other path keeps its contents. -/
theorem C10_backup_create_once (fs : FS) :
    (fsExists fs backup_config = true → backup_samba_config fs = fs)
  ∧ (fsExists fs samba_config = false → backup_samba_config fs = fs)
  ∧ (fsExists fs samba_config = true → fsExists fs backup_config = false →
        backup_samba_config fs backup_config = fs samba_config
      ∧ ∀ p, p ≠ backup_config → backup_samba_config fs p = fs p) := by
  refine ⟨?_, ?_, ?_⟩
  · intro hb
    cases hc : fsExists fs samba_config <;> simp [backup_samba_config, hc, hb]
  · intro hc
    simp [backup_samba_config, hc]
  · intro hc hb
    constructor
    · simp [backup_samba_config, hc, hb, copy2]
    · intro p hp
      simp [backup_samba_config, hc, hb, copy2, hp]

/-- Witness for C10 on a filesystem holding only the config: the backup
is created with the config contents and the config itself is kept. -/
theorem C10_witness :
    backup_samba_config fs0 backup_config = some ("original config")
  ∧ backup_samba_config fs0 samba_config = some ("original config") := by
  have h := (C10_backup_create_once fs0).2.2 rfl rfl
  constructor
  · rw [h.1]
    rfl
  · rw [h.2 samba_config (by decide)]
    rfl
